import Mathlib

/-!
Shallow embedding of the Telegram bot gateway in `main.py`: configuration
loading, the user-profile store with its upsert merge, the event log, the
external flyer check, the `/start` and `/menu` handlers, and the webhook
receiver.  Database tables are modelled as lists of rows, `NOW()` as an
explicit `now : Nat` argument, and the external check service as an oracle
function supplied in an environment.
-/

set_option autoImplicit false

namespace BotGateway

/-- A Telegram user as seen by the handlers (`message.from_user`):
a numeric id, the premium flag, and an optional language code. -/
structure TgUser where
  id : Int
  is_premium : Bool
  language_code : Option String
deriving DecidableEq, Repr

/-- An incoming bot message: the sending user and the raw text. -/
structure Message where
  from_user : TgUser
  text : String
deriving DecidableEq, Repr

/-- A row of the `users` table (the surrogate `id BIGSERIAL` column is
omitted; rows are identified by `tg_id`, which is UNIQUE). -/
structure UserRow where
  tg_id : Int
  is_premium : Bool
  source : Option String
  flyer_passed : Bool
  created_at : Nat
  last_seen_at : Nat
deriving DecidableEq, Repr

/-- A row of the `traffic_log` table (surrogate key omitted). -/
structure EventRow where
  tg_id : Int
  event : String
  source : Option String
  is_premium : Bool
  created_at : Nat
deriving DecidableEq, Repr

/-- The persistent store: the `users` table and the append-only
`traffic_log` table. -/
structure DBState where
  users : List UserRow
  log : List EventRow
deriving DecidableEq, Repr

/-- Which flyer credential a call is made with
(`flyer_premium` vs `flyer_regular`). -/
inductive FlyerKey where
  | premium
  | regular
deriving DecidableEq, Repr

/-- The external world: the flyer check service, as an oracle from
(credential, user id, language code) to the boolean check result. -/
structure Env where
  check : FlyerKey → Int → String → Bool

/-- `users.find?` on the UNIQUE key: the row with the given `tg_id`,
if any.  This is how `WHERE tg_id = $1` resolves on the `users` table. -/
def findUser (uid : Int) (users : List UserRow) : Option UserRow :=
  users.find? (fun r => r.tg_id == uid)

/-- `UPDATE users SET ... WHERE tg_id = uid`: apply `f` to every row whose
`tg_id` matches `uid`, leave all other rows unchanged. -/
def sqlUpdateWhere (uid : Int) (f : UserRow → UserRow) (users : List UserRow) :
    List UserRow :=
  users.map (fun r => if r.tg_id = uid then f r else r)

/-- The `DO UPDATE SET` clause of `upsert_user`:
`is_premium = EXCLUDED.is_premium`, `last_seen_at = NOW()`,
`flyer_passed = users.flyer_passed OR EXCLUDED.flyer_passed`,
`source = COALESCE(users.source, EXCLUDED.source)`. -/
def updateRow (u : TgUser) (source : Option String) (flyer_passed : Bool)
    (now : Nat) (r : UserRow) : UserRow :=
  { r with
    is_premium := u.is_premium
    last_seen_at := now
    flyer_passed := r.flyer_passed || flyer_passed
    source := match r.source with
              | some s => some s
              | none => source }

/-- The row inserted by `upsert_user` when no conflicting row exists;
`created_at` and `last_seen_at` take their `DEFAULT NOW()`. -/
def newRow (u : TgUser) (source : Option String) (flyer_passed : Bool)
    (now : Nat) : UserRow :=
  { tg_id := u.id
    is_premium := u.is_premium
    source := source
    flyer_passed := flyer_passed
    created_at := now
    last_seen_at := now }

/-- `upsert_user`: `INSERT INTO users ... ON CONFLICT (tg_id) DO UPDATE`.
If a row with the same `tg_id` exists it is updated by the merge
expressions, otherwise a fresh row is inserted. -/
def upsert_user (u : TgUser) (source : Option String) (flyer_passed : Bool)
    (now : Nat) (users : List UserRow) : List UserRow :=
  if (findUser u.id users).isSome then
    sqlUpdateWhere u.id (updateRow u source flyer_passed now) users
  else
    users ++ [newRow u source flyer_passed now]

/-- `log_event`: append one row to `traffic_log`. -/
def log_event (u : TgUser) (event : String) (source : Option String)
    (now : Nat) (db : DBState) : DBState :=
  { db with log := db.log ++ [⟨u.id, event, source, u.is_premium, now⟩] }

/-- Python `x or d` on an optional string: `None` and `""` are falsy. -/
def pyOrStr (o : Option String) (d : String) : String :=
  match o with
  | none => d
  | some s => if s = "" then d else s

/-- The credential chosen in `check_flyer`:
`flyer_premium if user.is_premium else flyer_regular`. -/
def flyerClient (u : TgUser) : FlyerKey :=
  if u.is_premium then FlyerKey.premium else FlyerKey.regular

/-- `check_flyer`: call the external check with the selected credential,
the user's id, and `user.language_code or "ru"`. -/
def check_flyer (env : Env) (u : TgUser) : Bool :=
  env.check (flyerClient u) u.id (pyOrStr u.language_code "ru")

/-- `ensure_access`: log a `"check_access"` event, run the external check,
upsert the profile with the check result, and return the result. -/
def ensure_access (env : Env) (m : Message) (source : Option String)
    (now : Nat) (db : DBState) : Bool × DBState :=
  let user := m.from_user
  let db1 := log_event user "check_access" source now db
  let ok := check_flyer env user
  let db2 := { db1 with users := upsert_user user source ok now db1.users }
  (ok, db2)

/-- `ensure_access_cb`: the callback-query variant — same check and upsert,
but no event row. -/
def ensure_access_cb (env : Env) (u : TgUser) (now : Nat) (db : DBState) :
    Bool × DBState :=
  let ok := check_flyer env u
  ⟨ok, { db with users := upsert_user u none ok now db.users }⟩

/-- Python `text.split()`, on a character list: split on runs of
whitespace; empty fields are produced here and dropped by the caller. -/
def splitWsAux : List Char → List Char → List (List Char)
  | [], acc => [acc.reverse]
  | c :: cs, acc =>
      if c.isWhitespace then acc.reverse :: splitWsAux cs []
      else splitWsAux cs (c :: acc)

/-- Python `text.split()`: whitespace-separated words, empties dropped. -/
def pySplit (s : String) : List String :=
  ((splitWsAux s.data []).filter (fun l => l ≠ [])).map (fun l => String.mk l)

/-- Python `text.split(" ")`, on a character list: split on every single
space, keeping empty fields. -/
def splitSpaceAux : List Char → List Char → List (List Char)
  | [], acc => [acc.reverse]
  | c :: cs, acc =>
      if c = ' ' then acc.reverse :: splitSpaceAux cs []
      else splitSpaceAux cs (c :: acc)

/-- Python `text.split(" ")`: space-delimited fields, empties kept. -/
def pySplitSpace (s : String) : List String :=
  (splitSpaceAux s.data []).map (fun l => String.mk l)

/-- The source parsing in `start_cmd`:
`message.text.split(" ")[1] if len(message.text.split()) > 1 else None`.
(On texts whose only whitespace is the space character the guard ensures
index 1 exists; a non-space whitespace separator would raise IndexError in
CPython, a case no handler input in the claims exercises.) -/
def parseSource (text : String) : Option String :=
  if (pySplit text).length > 1 then some ((pySplitSpace text).getD 1 "")
  else none

/-- The welcome text of `start_cmd`, as a function of the premium flag. -/
def welcomeMessage (is_premium : Bool) : String :=
  "👋 Добро пожаловать!\n\nPremium: " ++
    (if is_premium then "💎 Да" else "❌ Нет") ++
    "\nПроверки пройдены.\n/menu - открыть меню"

/-- `start_cmd`: parse the optional source token, log a `"start"` event,
run the gate; reply with the welcome message when allowed, silently
return when denied.  The first component is the reply sent, if any. -/
def start_cmd (env : Env) (m : Message) (now : Nat) (db : DBState) :
    Option String × DBState :=
  let source := parseSource m.text
  let db1 := log_event m.from_user "start" source now db
  let r := ensure_access env m source now db1
  if r.1 then (some (welcomeMessage m.from_user.is_premium), r.2)
  else (none, r.2)

/-- The static menu text. -/
def menuMessage : String := "📍 Пример меню — функционал будет тут."

/-- `menu_cmd`: log a `"menu"` event, run the gate with no source; reply
with the placeholder when allowed. -/
def menu_cmd (env : Env) (m : Message) (now : Nat) (db : DBState) :
    Option String × DBState :=
  let db1 := log_event m.from_user "menu" none now db
  let r := ensure_access env m none now db1
  if r.1 then (some menuMessage, r.2) else (none, r.2)

/-- A webhook request body, already shaped: `payload.get("type")` and
`payload.get("data", \x7b\x7d).get("user_id")` (absent `data` and absent
`user_id` both yield `none`). -/
structure WebhookPayload where
  type : Option String
  user_id : Option Int
deriving DecidableEq, Repr

/-- The webhook response body `{"status": true}`. -/
structure WebhookResponse where
  status : Bool
deriving DecidableEq, Repr

/-- `flyer_webhook`: on `type == "sub_completed"` run
`UPDATE users SET flyer_passed = TRUE WHERE tg_id = $1` (a NULL `user_id`
matches no row); any other type changes nothing; always answer
`{"status": true}`. -/
def flyer_webhook (p : WebhookPayload) (db : DBState) :
    WebhookResponse × DBState :=
  let db' :=
    if p.type = some "sub_completed" then
      match p.user_id with
      | some uid =>
          { db with
            users := sqlUpdateWhere uid
              (fun r => { r with flyer_passed := true }) db.users }
      | none => db
    else db
  (⟨true⟩, db')

/-- The raw environment at startup: the five `os.getenv` reads. -/
structure RawEnv where
  bot_token : Option String
  flyer_key_premium : Option String
  flyer_key_regular : Option String
  database_url : Option String
  port : Option String
deriving DecidableEq, Repr

/-- Python truthiness of an optional string: `None` and `""` are falsy. -/
def pyTruthy (o : Option String) : Bool :=
  match o with
  | none => false
  | some s => s ≠ ""

/-- The validated configuration the process starts with. -/
structure Config where
  bot_token : String
  flyer_key_premium : String
  flyer_key_regular : String
  database_url : String
  port : Int
deriving DecidableEq, Repr

/-- Python `int(s)` on a decimal string: an optional sign followed by at
least one digit (the model of `int()` needed for the `PORT` default). -/
def pyDigits? (l : List Char) : Option Nat :=
  if l = [] then none
  else if l.all Char.isDigit then
    some (l.foldl (fun acc c => acc * 10 + (c.toNat - 48)) 0)
  else none

/-- Python `int(s)`: sign handling on top of `pyDigits?`. -/
def pyInt? (s : String) : Option Int :=
  match s.data with
  | '-' :: rest => (pyDigits? rest).map (fun n => -(n : Int))
  | '+' :: rest => (pyDigits? rest).map (fun n => (n : Int))
  | l => (pyDigits? l).map (fun n => (n : Int))

/-- The module-level configuration code: `PORT = int(os.getenv("PORT",
"8000"))` runs first (so an unparsable `PORT` aborts too), then each of
the four required values aborts the process with a `RuntimeError` when
falsy.  `Except.error` is the abort path. -/
def loadConfig (e : RawEnv) : Except String Config :=
  match pyInt? (e.port.getD "8000") with
  | none => Except.error "ValueError: invalid PORT"
  | some port =>
    if pyTruthy e.bot_token = false then Except.error "❌ Missing BOT_TOKEN"
    else if pyTruthy e.flyer_key_premium = false then
      Except.error "❌ Missing FLYER_KEY_PREMIUM"
    else if pyTruthy e.flyer_key_regular = false then
      Except.error "❌ Missing FLYER_KEY_REGULAR"
    else if pyTruthy e.database_url = false then
      Except.error "❌ Missing DATABASE_URL"
    else Except.ok
      { bot_token := e.bot_token.getD ""
        flyer_key_premium := e.flyer_key_premium.getD ""
        flyer_key_regular := e.flyer_key_regular.getD ""
        database_url := e.database_url.getD ""
        port := port }

end BotGateway

namespace BotGateway

theorem findUser_nil (uid : Int) : findUser uid [] = none := rfl

theorem findUser_cons (uid : Int) (r : UserRow) (rs : List UserRow) :
    findUser uid (r :: rs) = if r.tg_id = uid then some r else findUser uid rs := by
  simp only [findUser, List.find?]
  cases hb : (r.tg_id == uid)
  · rw [beq_eq_false_iff_ne] at hb
    simp [findUser, hb]
  · rw [beq_iff_eq] at hb
    simp [hb]

theorem sqlUpdateWhere_cons (uid : Int) (f : UserRow → UserRow) (r : UserRow)
    (rs : List UserRow) :
    sqlUpdateWhere uid f (r :: rs)
      = (if r.tg_id = uid then f r else r) :: sqlUpdateWhere uid f rs := rfl

theorem findUser_sqlUpdateWhere (uid : Int) (f : UserRow → UserRow)
    (hf : ∀ r, (f r).tg_id = r.tg_id) (users : List UserRow) :
    findUser uid (sqlUpdateWhere uid f users) = (findUser uid users).map f := by
  induction users with
  | nil => rfl
  | cons r rs ih =>
      rw [sqlUpdateWhere_cons, findUser_cons, findUser_cons]
      by_cases h : r.tg_id = uid
      · simp [h, hf r]
      · simp [h, ih]

theorem sqlUpdateWhere_of_not_found (uid : Int) (f : UserRow → UserRow)
    (users : List UserRow) (h : findUser uid users = none) :
    sqlUpdateWhere uid f users = users := by
  induction users with
  | nil => rfl
  | cons r rs ih =>
      rw [findUser_cons] at h
      by_cases hr : r.tg_id = uid
      · simp [hr] at h
      · rw [sqlUpdateWhere_cons, if_neg hr, ih (by simpa [hr] using h)]

theorem findUser_append_right (uid : Int) (users : List UserRow) (r : UserRow)
    (h : findUser uid users = none) :
    findUser uid (users ++ [r]) = if r.tg_id = uid then some r else none := by
  induction users with
  | nil => simp [findUser_cons, findUser_nil]
  | cons q qs ih =>
      rw [findUser_cons] at h
      by_cases hq : q.tg_id = uid
      · simp [hq] at h
      · rw [List.cons_append, findUser_cons, if_neg hq, ih (by simpa [hq] using h)]

theorem findUser_upsert_self (u : TgUser) (s : Option String) (fp : Bool)
    (now : Nat) (users : List UserRow) :
    findUser u.id (upsert_user u s fp now users)
      = some (match findUser u.id users with
              | some r => updateRow u s fp now r
              | none => newRow u s fp now) := by
  unfold upsert_user
  cases h : findUser u.id users with
  | some r =>
      rw [if_pos (by simp [h])]
      rw [findUser_sqlUpdateWhere u.id (updateRow u s fp now) (fun r => rfl) users, h]
      rfl
  | none =>
      rw [if_neg (by simp [h])]
      rw [findUser_append_right u.id users _ h]
      simp [newRow]

end BotGateway

namespace BotGateway

theorem upsert_true_gives_passed (u : TgUser) (s : Option String) (n : Nat)
    (users : List UserRow) :
    ∃ r, findUser u.id (upsert_user u s true n users) = some r
      ∧ r.flyer_passed = true := by
  rcases h : findUser u.id users with _ | r <;>
    rw [findUser_upsert_self, h]
  · exact ⟨_, rfl, rfl⟩
  · exact ⟨_, rfl, by simp [updateRow]⟩

theorem upsert_preserves_passed (u : TgUser) (s : Option String) (fp : Bool)
    (n : Nat) (users : List UserRow) (r : UserRow)
    (h : findUser u.id users = some r) (hr : r.flyer_passed = true) :
    ∃ r', findUser u.id (upsert_user u s fp n users) = some r'
      ∧ r'.flyer_passed = true := by
  rw [findUser_upsert_self, h]
  exact ⟨_, rfl, by simp [updateRow, hr]⟩

theorem ensure_access_users (env : Env) (m : Message) (source : Option String)
    (now : Nat) (db : DBState) :
    (ensure_access env m source now db).2.users
      = upsert_user m.from_user source (check_flyer env m.from_user) now db.users := rfl

/-- C1: the upsert merge keeps `flyer_passed` sticky: a stored true row
stays true under any later upsert, and running the gate with check result
true and then with check result false leaves the stored flag true. -/
theorem claim1_flyer_passed_sticky (u : TgUser) (s1 s2 : Option String)
    (fp : Bool) (n1 n2 : Nat) (users : List UserRow) (r : UserRow) :
    (findUser u.id users = some r → r.flyer_passed = true →
      ∃ r', findUser u.id (upsert_user u s1 fp n1 users) = some r'
        ∧ r'.flyer_passed = true)
    ∧ (∀ (env1 env2 : Env) (m : Message) (db : DBState),
        m.from_user = u →
        check_flyer env1 u = true → check_flyer env2 u = false →
        (findUser u.id
            (ensure_access env2 m s2 n2
              (ensure_access env1 m s1 n1 db).2).2.users).map
          UserRow.flyer_passed = some true) := by
  constructor
  · exact fun h hr => upsert_preserves_passed u s1 fp n1 users r h hr
  · intro env1 env2 m db hm h1 h2
    rw [ensure_access_users, ensure_access_users, hm, h1, h2]
    obtain ⟨r1, hr1, hp1⟩ := upsert_true_gives_passed u s1 n1 db.users
    rw [findUser_upsert_self]
    simp only [hr1]
    simp [updateRow, hp1]

theorem claim1_witness :
    (∃ r', findUser 7 (upsert_user ⟨7, false, none⟩ none false 1
        [⟨7, false, none, true, 0, 0⟩]) = some r' ∧ r'.flyer_passed = true)
    ∧ (findUser 7
        (ensure_access ⟨fun _ _ _ => false⟩ ⟨⟨7, false, none⟩, "/start"⟩ none 2
          (ensure_access ⟨fun _ _ _ => true⟩ ⟨⟨7, false, none⟩, "/start"⟩ none 1
            ⟨[], []⟩).2).2.users).map UserRow.flyer_passed = some true := by
  have h := claim1_flyer_passed_sticky ⟨7, false, none⟩ none none false 1 2
    [⟨7, false, none, true, 0, 0⟩] ⟨7, false, none, true, 0, 0⟩
  exact ⟨h.1 (by decide) rfl,
    h.2 ⟨fun _ _ _ => true⟩ ⟨fun _ _ _ => false⟩ ⟨⟨7, false, none⟩, "/start"⟩
      ⟨[], []⟩ rfl rfl rfl⟩

end BotGateway

namespace BotGateway

theorem upsert_source_preserved (u : TgUser) (s2 : Option String) (fp : Bool)
    (n : Nat) (users : List UserRow) (r : UserRow) (s : String)
    (h : findUser u.id users = some r) (hr : r.source = some s) :
    ∃ r', findUser u.id (upsert_user u s2 fp n users) = some r'
      ∧ r'.source = some s := by
  rw [findUser_upsert_self, h]
  exact ⟨_, rfl, by simp [updateRow, hr]⟩

/-- C2: the stored `source` is first-non-null-write-wins: once a profile's
`source` is non-null no later upsert changes it, and upserting `some sa`
then `some sb` from a profile with no source yet stores `some sa`. -/
theorem claim2_source_first_write_wins (u : TgUser) (s2 : Option String)
    (fp1 fp2 : Bool) (n1 n2 : Nat) (users : List UserRow) (r : UserRow)
    (s sa sb : String) :
    (findUser u.id users = some r → r.source = some s →
      ∃ r', findUser u.id (upsert_user u s2 fp1 n1 users) = some r'
        ∧ r'.source = some s)
    ∧ ((findUser u.id users = none
          ∨ ∃ r0, findUser u.id users = some r0 ∧ r0.source = none) →
        (findUser u.id (upsert_user u (some sb) fp2 n2
            (upsert_user u (some sa) fp1 n1 users))).map UserRow.source
          = some (some sa)) := by
  constructor
  · exact fun h hr => upsert_source_preserved u s2 fp1 n1 users r s h hr
  · intro h
    have h1 : ∃ r1, findUser u.id (upsert_user u (some sa) fp1 n1 users) = some r1
        ∧ r1.source = some sa := by
      rcases h with h | ⟨r0, h0, hs0⟩
      · rw [findUser_upsert_self, h]
        exact ⟨_, rfl, rfl⟩
      · rw [findUser_upsert_self, h0]
        exact ⟨_, rfl, by simp [updateRow, hs0]⟩
    obtain ⟨r1, hr1, hs1⟩ := h1
    rw [findUser_upsert_self, hr1]
    simp [updateRow, hs1]

theorem claim2_witness :
    (∃ r', findUser 7 (upsert_user ⟨7, false, none⟩ (some "b") true 1
        [⟨7, false, some "a", false, 0, 0⟩]) = some r' ∧ r'.source = some "a")
    ∧ ((findUser 7 (upsert_user ⟨7, false, none⟩ (some "b") false 2
        (upsert_user ⟨7, false, none⟩ (some "a") false 1 []))).map
        UserRow.source = some (some "a")) := by
  have h := claim2_source_first_write_wins ⟨7, false, none⟩ (some "b") true false
    1 2 [⟨7, false, some "a", false, 0, 0⟩] ⟨7, false, some "a", false, 0, 0⟩
    "a" "a" "b"
  have h2 := claim2_source_first_write_wins ⟨7, false, none⟩ (some "b") false false
    1 2 [] ⟨7, false, some "a", false, 0, 0⟩ "a" "a" "b"
  exact ⟨h.1 (by decide) rfl, h2.2 (Or.inl rfl)⟩

end BotGateway

namespace BotGateway

theorem splitWsAux_no_ws (l : List Char) (acc : List Char)
    (h : ∀ c ∈ l, c.isWhitespace = false) :
    splitWsAux l acc = [acc.reverse ++ l] := by
  induction l generalizing acc with
  | nil => simp [splitWsAux]
  | cons c cs ih =>
      rw [splitWsAux, if_neg (by simp [h c (by simp)])]
      rw [ih (c :: acc) (fun d hd => h d (by simp [hd]))]
      simp

theorem splitWsAux_word (w rest acc : List Char)
    (hw : ∀ c ∈ w, c.isWhitespace = false) :
    splitWsAux (w ++ ' ' :: rest) acc
      = (acc.reverse ++ w) :: splitWsAux rest [] := by
  induction w generalizing acc with
  | nil => simp [splitWsAux]
  | cons c cs ih =>
      rw [List.cons_append, splitWsAux, if_neg (by simp [hw c (by simp)])]
      rw [ih (c :: acc) (fun d hd => hw d (by simp [hd]))]
      simp

theorem splitSpaceAux_no_space (l : List Char) (acc : List Char)
    (h : ∀ c ∈ l, c ≠ ' ') :
    splitSpaceAux l acc = [acc.reverse ++ l] := by
  induction l generalizing acc with
  | nil => simp [splitSpaceAux]
  | cons c cs ih =>
      rw [splitSpaceAux, if_neg (h c (by simp))]
      rw [ih (c :: acc) (fun d hd => h d (by simp [hd]))]
      simp

theorem splitSpaceAux_word (w rest acc : List Char)
    (hw : ∀ c ∈ w, c ≠ ' ') :
    splitSpaceAux (w ++ ' ' :: rest) acc
      = (acc.reverse ++ w) :: splitSpaceAux rest [] := by
  induction w generalizing acc with
  | nil => simp [splitSpaceAux]
  | cons c cs ih =>
      rw [List.cons_append, splitSpaceAux, if_neg (hw c (by simp))]
      rw [ih (c :: acc) (fun d hd => hw d (by simp [hd]))]
      simp

theorem data_start_append (tok : String) :
    ("/start " ++ tok).data = ['/', 's', 't', 'a', 'r', 't'] ++ ' ' :: tok.data := by
  cases tok with
  | mk l => rfl

/-- C3 counterexample: on the text `"/start  promo1"` (two spaces) the
trailing token is the non-empty `"promo1"`, yet the parsed source is
`some ""` — neither `none` (empty-token treatment) nor the token
verbatim. -/
theorem claim3_counterexample :
    parseSource "/start  promo1" = some ""
    ∧ (some "" : Option String) ≠ none
    ∧ (some "" : Option String) ≠ some "promo1" := by decide

/-- C3 amended: a text with at most one whitespace-separated word (so no
trailing token, or only trailing whitespace) parses to `none`, and a
non-empty whitespace-free token separated from the command by a single
space is passed through verbatim; only consecutive spaces break the
verbatim clause (yielding `some ""`, as the counterexample shows). -/
theorem claim3_parse_source_amended (text tok : String) :
    ((pySplit text).length ≤ 1 → parseSource text = none)
    ∧ (tok ≠ "" → (∀ c ∈ tok.data, c.isWhitespace = false) →
        parseSource ("/start " ++ tok) = some tok) := by
  constructor
  · intro h
    rw [parseSource, if_neg (by omega)]
  · intro hne hws
    have hdata : tok.data ≠ [] := by
      intro h
      apply hne
      cases tok with
      | mk l =>
          have h' : l = [] := h
          rw [h']
    have hd : ("/start " ++ tok).data = ['/', 's', 't', 'a', 'r', 't'] ++ ' ' :: tok.data :=
      data_start_append tok
    have hsplit : pySplit ("/start " ++ tok)
        = [String.mk ['/', 's', 't', 'a', 'r', 't'], String.mk tok.data] := by
      rw [pySplit, hd, splitWsAux_word _ _ _ (by decide),
        splitWsAux_no_ws _ _ hws]
      simp [hdata]
    have hspace : pySplitSpace ("/start " ++ tok)
        = [String.mk ['/', 's', 't', 'a', 'r', 't'], String.mk tok.data] := by
      rw [pySplitSpace, hd, splitSpaceAux_word _ _ _ (by decide),
        splitSpaceAux_no_space _ _ (fun c hc => by
          have := hws c hc
          intro he
          rw [he] at this
          simp [Char.isWhitespace] at this)]
      simp
    rw [parseSource, if_pos (by rw [hsplit]; simp), hspace]
    simp

theorem claim3_amended_witness :
    parseSource "/start " = none ∧ parseSource "/start promo1" = some "promo1" := by
  have h1 := (claim3_parse_source_amended "/start " "promo1").1
  have h2 := (claim3_parse_source_amended "/start " "promo1").2
  exact ⟨h1 (by decide), h2 (by decide) (by decide)⟩

end BotGateway

namespace BotGateway

/-- C4: the external check is routed by the premium flag — premium users
use the premium credential, others the regular one — and is invoked with
the user's id and language code, `"ru"` when absent. -/
theorem claim4_check_routing (env : Env) (u : TgUser) :
    (u.is_premium = true →
      check_flyer env u
        = env.check FlyerKey.premium u.id (pyOrStr u.language_code "ru"))
    ∧ (u.is_premium = false →
      check_flyer env u
        = env.check FlyerKey.regular u.id (pyOrStr u.language_code "ru"))
    ∧ (u.language_code = none →
      check_flyer env u = env.check (flyerClient u) u.id "ru")
    ∧ (∀ s, u.language_code = some s → s ≠ "" →
      check_flyer env u = env.check (flyerClient u) u.id s) := by
  refine ⟨fun h => ?_, fun h => ?_, fun h => ?_, fun s h hs => ?_⟩
  · simp [check_flyer, flyerClient, pyOrStr, h]
  · simp [check_flyer, flyerClient, pyOrStr, h]
  · simp [check_flyer, flyerClient, pyOrStr, h]
  · simp [check_flyer, flyerClient, pyOrStr, h, hs]

theorem claim4_witness :
    check_flyer ⟨fun k _ _ => decide (k = FlyerKey.premium)⟩ ⟨5, true, none⟩
      = Env.check ⟨fun k _ _ => decide (k = FlyerKey.premium)⟩ FlyerKey.premium 5
          (pyOrStr none "ru")
    ∧ check_flyer ⟨fun k _ _ => decide (k = FlyerKey.premium)⟩ ⟨5, true, none⟩
      = Env.check ⟨fun k _ _ => decide (k = FlyerKey.premium)⟩
          (flyerClient ⟨5, true, none⟩) 5 "ru" := by
  have h := claim4_check_routing ⟨fun k _ _ => decide (k = FlyerKey.premium)⟩
    ⟨5, true, none⟩
  exact ⟨h.1 rfl, h.2.2.1 rfl⟩

/-- C5: when the check denies, `start_cmd` sends no reply yet still logs
exactly a `"start"` and a `"check_access"` event and upserts the profile
with `flyer_passed = false` (creating it when absent); when the check
allows, the welcome message showing the premium flag is sent. -/
theorem claim5_start_denied_silent (env : Env) (m : Message) (now : Nat)
    (db : DBState) :
    (check_flyer env m.from_user = false →
      (start_cmd env m now db).1 = none
      ∧ (start_cmd env m now db).2.log
          = db.log ++
            [⟨m.from_user.id, "start", parseSource m.text,
                m.from_user.is_premium, now⟩,
             ⟨m.from_user.id, "check_access", parseSource m.text,
                m.from_user.is_premium, now⟩]
      ∧ (findUser m.from_user.id db.users = none →
          findUser m.from_user.id (start_cmd env m now db).2.users
            = some ⟨m.from_user.id, m.from_user.is_premium, parseSource m.text,
                false, now, now⟩))
    ∧ (check_flyer env m.from_user = true →
      (start_cmd env m now db).1 = some (welcomeMessage m.from_user.is_premium))
    ∧ welcomeMessage true ≠ welcomeMessage false := by
  refine ⟨fun h => ⟨?_, ?_, fun hnone => ?_⟩, fun h => ?_, by decide⟩
  · simp [start_cmd, ensure_access, h]
  · simp [start_cmd, ensure_access, log_event, h]
  · have hu : (start_cmd env m now db).2.users
        = upsert_user m.from_user (parseSource m.text) false now db.users := by
      simp [start_cmd, ensure_access, log_event, h]
    rw [hu, findUser_upsert_self, hnone]
    rfl
  · simp [start_cmd, ensure_access, h]

theorem claim5_witness :
    (start_cmd ⟨fun _ _ _ => false⟩ ⟨⟨42, false, none⟩, "/start"⟩ 0 ⟨[], []⟩).1
      = none
    ∧ (start_cmd ⟨fun _ _ _ => false⟩ ⟨⟨42, false, none⟩, "/start"⟩ 0
        ⟨[], []⟩).2.log
      = [] ++ [⟨42, "start", parseSource "/start", false, 0⟩,
          ⟨42, "check_access", parseSource "/start", false, 0⟩]
    ∧ findUser 42 (start_cmd ⟨fun _ _ _ => false⟩ ⟨⟨42, false, none⟩, "/start"⟩
        0 ⟨[], []⟩).2.users
      = some ⟨42, false, parseSource "/start", false, 0, 0⟩ := by
  have h := claim5_start_denied_silent ⟨fun _ _ _ => false⟩
    ⟨⟨42, false, none⟩, "/start"⟩ 0 ⟨[], []⟩
  obtain ⟨h1, h2, h3⟩ := h.1 rfl
  exact ⟨h1, h2, h3 rfl⟩

end BotGateway

namespace BotGateway

theorem sqlUpdateWhere_idem (uid : Int) (f : UserRow → UserRow)
    (hid : ∀ r, (f r).tg_id = r.tg_id) (hidem : ∀ r, f (f r) = f r)
    (users : List UserRow) :
    sqlUpdateWhere uid f (sqlUpdateWhere uid f users)
      = sqlUpdateWhere uid f users := by
  induction users with
  | nil => rfl
  | cons r rs ih =>
      rw [sqlUpdateWhere_cons, sqlUpdateWhere_cons, ih]
      by_cases h : r.tg_id = uid
      · rw [if_pos h, if_pos (by rw [hid r]; exact h), hidem r]
      · rw [if_neg h, if_neg h]

/-- C6: a `sub_completed` webhook for a known user sets that profile's
`flyer_passed` to true by direct overwrite, is idempotent, changes nothing
for any other `type`, and always answers `{status: true}`. -/
theorem claim6_webhook_sub_completed (p : WebhookPayload) (db : DBState)
    (uid : Int) (r : UserRow) :
    (flyer_webhook p db).1 = ⟨true⟩
    ∧ (p.type ≠ some "sub_completed" → (flyer_webhook p db).2 = db)
    ∧ (p.type = some "sub_completed" → p.user_id = some uid →
        findUser uid db.users = some r →
        findUser uid (flyer_webhook p db).2.users
          = some { r with flyer_passed := true })
    ∧ (flyer_webhook p (flyer_webhook p db).2).2 = (flyer_webhook p db).2 := by
  refine ⟨rfl, fun h => ?_, fun ht hu hr => ?_, ?_⟩
  · simp [flyer_webhook, h]
  · have husers : (flyer_webhook p db).2.users
        = sqlUpdateWhere uid (fun r => { r with flyer_passed := true }) db.users := by
      simp [flyer_webhook, ht, hu]
    rw [husers, findUser_sqlUpdateWhere uid
      (fun r => { r with flyer_passed := true }) (fun r => rfl) db.users, hr]
    rfl
  · by_cases ht : p.type = some "sub_completed"
    · cases hu : p.user_id with
      | none => simp [flyer_webhook, ht, hu]
      | some uid' =>
          simp only [flyer_webhook, ht, hu, if_pos]
          simp [sqlUpdateWhere_idem uid'
            (fun r => { r with flyer_passed := true }) (fun r => rfl)
            (fun r => rfl) db.users]
    · simp [flyer_webhook, ht]

theorem claim6_witness :
    (flyer_webhook ⟨some "sub_completed", some 7⟩
        ⟨[⟨7, false, none, false, 0, 0⟩], []⟩).1 = ⟨true⟩
    ∧ findUser 7 (flyer_webhook ⟨some "sub_completed", some 7⟩
        ⟨[⟨7, false, none, false, 0, 0⟩], []⟩).2.users
      = some ⟨7, false, none, true, 0, 0⟩ := by
  have h := claim6_webhook_sub_completed ⟨some "sub_completed", some 7⟩
    ⟨[⟨7, false, none, false, 0, 0⟩], []⟩ 7 ⟨7, false, none, false, 0, 0⟩
  exact ⟨h.1, h.2.2.1 rfl rfl (by decide)⟩

/-- C7: a `sub_completed` webhook whose `user_id` is absent or matches no
profile row changes no state and still answers `{status: true}`. -/
theorem claim7_webhook_unknown_user (p : WebhookPayload) (db : DBState)
    (uid : Int) :
    p.type = some "sub_completed" →
    (p.user_id = none ∨ (p.user_id = some uid ∧ findUser uid db.users = none)) →
    (flyer_webhook p db).2 = db ∧ (flyer_webhook p db).1.status = true := by
  intro ht h
  refine ⟨?_, rfl⟩
  rcases h with h | ⟨h, hn⟩
  · simp [flyer_webhook, ht, h]
  · simp [flyer_webhook, ht, h, sqlUpdateWhere_of_not_found uid _ db.users hn]

theorem claim7_witness :
    (flyer_webhook ⟨some "sub_completed", some 99⟩
        ⟨[⟨7, false, none, false, 0, 0⟩], []⟩).2
      = ⟨[⟨7, false, none, false, 0, 0⟩], []⟩
    ∧ (flyer_webhook ⟨some "sub_completed", some 99⟩
        ⟨[⟨7, false, none, false, 0, 0⟩], []⟩).1.status = true := by
  exact claim7_webhook_unknown_user ⟨some "sub_completed", some 99⟩
    ⟨[⟨7, false, none, false, 0, 0⟩], []⟩ 99 rfl (Or.inr ⟨rfl, by decide⟩)

end BotGateway

namespace BotGateway

theorem map_tg_id_sqlUpdateWhere (uid : Int) (f : UserRow → UserRow)
    (hf : ∀ r, (f r).tg_id = r.tg_id) (users : List UserRow) :
    (sqlUpdateWhere uid f users).map UserRow.tg_id = users.map UserRow.tg_id := by
  induction users with
  | nil => rfl
  | cons r rs ih =>
      rw [sqlUpdateWhere_cons, List.map_cons, List.map_cons, ih]
      by_cases h : r.tg_id = uid
      · rw [if_pos h, hf r]
      · rw [if_neg h]

theorem not_mem_ids_of_find_none (uid : Int) (users : List UserRow)
    (h : findUser uid users = none) : uid ∉ users.map UserRow.tg_id := by
  induction users with
  | nil => simp
  | cons r rs ih =>
      rw [findUser_cons] at h
      by_cases hr : r.tg_id = uid
      · rw [if_pos hr] at h
        exact absurd h (by simp)
      · rw [if_neg hr] at h
        simp only [List.map_cons, List.mem_cons]
        rintro (h1 | h1)
        · exact hr h1.symm
        · exact ih h h1

theorem upsert_preserves_nodup (u : TgUser) (s : Option String) (fp : Bool)
    (now : Nat) (users : List UserRow)
    (h : (users.map UserRow.tg_id).Nodup) :
    ((upsert_user u s fp now users).map UserRow.tg_id).Nodup := by
  rw [upsert_user]
  cases hf : findUser u.id users with
  | some r =>
      rw [if_pos (by simp [hf])]
      rw [map_tg_id_sqlUpdateWhere u.id (updateRow u s fp now)
        (fun r => rfl) users]
      exact h
  | none =>
      rw [if_neg (by simp [hf])]
      rw [List.map_append]
      rw [List.nodup_append]
      exact ⟨h, by simp [newRow], by
        simp only [newRow, List.map_cons, List.map_nil]
        intro a ha hb
        simp at hb
        rw [hb] at ha
        exact not_mem_ids_of_find_none u.id users hf ha⟩

theorem start_cmd_users (env : Env) (m : Message) (now : Nat) (db : DBState) :
    (start_cmd env m now db).2.users
      = upsert_user m.from_user (parseSource m.text)
          (check_flyer env m.from_user) now db.users := by
  cases h : check_flyer env m.from_user <;>
    simp [start_cmd, ensure_access, log_event, h]

theorem menu_cmd_users (env : Env) (m : Message) (now : Nat) (db : DBState) :
    (menu_cmd env m now db).2.users
      = upsert_user m.from_user none
          (check_flyer env m.from_user) now db.users := by
  cases h : check_flyer env m.from_user <;>
    simp [menu_cmd, ensure_access, log_event, h]

theorem webhook_preserves_nodup (p : WebhookPayload) (db : DBState)
    (h : (db.users.map UserRow.tg_id).Nodup) :
    ((flyer_webhook p db).2.users.map UserRow.tg_id).Nodup := by
  by_cases ht : p.type = some "sub_completed"
  · cases hu : p.user_id with
    | none => simpa [flyer_webhook, ht, hu] using h
    | some uid =>
        have husers : (flyer_webhook p db).2.users
            = sqlUpdateWhere uid (fun r => { r with flyer_passed := true })
                db.users := by
          simp [flyer_webhook, ht, hu]
        rw [husers, map_tg_id_sqlUpdateWhere uid
          (fun r => { r with flyer_passed := true }) (fun r => rfl) db.users]
        exact h
  · simpa [flyer_webhook, ht] using h

/-- C9: the store holds at most one row per identity: a fresh upsert
creates exactly one matching row, a repeated upsert updates in place
without adding a row, and distinctness of the stored `tg_id`s is preserved
by `upsert_user`, by the gate, by both command handlers and by the webhook
update. -/
theorem claim9_one_row_per_identity (u : TgUser) (s : Option String)
    (fp : Bool) (now : Nat) (users : List UserRow) (p : WebhookPayload)
    (db : DBState) (env : Env) (m : Message) :
    (findUser u.id users = none →
      (upsert_user u s fp now users).length = users.length + 1
      ∧ ((upsert_user u s fp now users).filter
          (fun r => r.tg_id == u.id)).length = 1)
    ∧ ((findUser u.id users).isSome = true →
        (upsert_user u s fp now users).length = users.length)
    ∧ ((users.map UserRow.tg_id).Nodup →
        ((upsert_user u s fp now users).map UserRow.tg_id).Nodup)
    ∧ ((db.users.map UserRow.tg_id).Nodup →
        ((ensure_access env m s now db).2.users.map UserRow.tg_id).Nodup
        ∧ ((start_cmd env m now db).2.users.map UserRow.tg_id).Nodup
        ∧ ((menu_cmd env m now db).2.users.map UserRow.tg_id).Nodup
        ∧ ((flyer_webhook p db).2.users.map UserRow.tg_id).Nodup) := by
  refine ⟨fun h => ⟨?_, ?_⟩, fun h => ?_, fun h => ?_, fun h => ⟨?_, ?_, ?_, ?_⟩⟩
  · rw [upsert_user, if_neg (by simp [h])]
    simp
  · rw [upsert_user, if_neg (by simp [h])]
    rw [List.filter_append]
    have h1 : users.filter (fun r => r.tg_id == u.id) = [] := by
      rw [List.filter_eq_nil_iff]
      intro r hr
      have := List.find?_eq_none.mp h r hr
      simpa using this
    rw [h1]
    simp [newRow]
  · rw [upsert_user, if_pos h]
    simp [sqlUpdateWhere]
  · exact upsert_preserves_nodup u s fp now users h
  · rw [ensure_access_users]
    exact upsert_preserves_nodup _ _ _ _ _ h
  · rw [start_cmd_users]
    exact upsert_preserves_nodup _ _ _ _ _ h
  · rw [menu_cmd_users]
    exact upsert_preserves_nodup _ _ _ _ _ h
  · exact webhook_preserves_nodup p db h

theorem claim9_witness :
    ((upsert_user ⟨7, false, none⟩ none false 0 []).length = 1
      ∧ ((upsert_user ⟨7, false, none⟩ none false 0 []).filter
          (fun r => r.tg_id == 7)).length = 1)
    ∧ (upsert_user ⟨7, false, none⟩ none true 1
        [⟨7, false, none, false, 0, 0⟩]).length = 1 := by
  have h := claim9_one_row_per_identity ⟨7, false, none⟩ none false 0 []
    (WebhookPayload.mk none none) (DBState.mk [] [])
    (Env.mk (fun _ _ _ => true)) (Message.mk ⟨7, false, none⟩ "/start")
  have h2 := claim9_one_row_per_identity ⟨7, false, none⟩ none true 1
    [⟨7, false, none, false, 0, 0⟩] (WebhookPayload.mk none none)
    (DBState.mk [] []) (Env.mk (fun _ _ _ => true))
    (Message.mk ⟨7, false, none⟩ "/start")
  exact ⟨h.1 rfl, h2.2.1 (by decide)⟩

end BotGateway

namespace BotGateway

/-- C10: a `sub_completed` webhook inserts no event row, keeps the row
count, and touches only `flyer_passed`: each row keeps its `is_premium`,
`source`, `created_at` and `last_seen_at` (in particular `last_seen_at` is
not bumped), and every row whose `tg_id` differs from the payload's
`user_id` is entirely unchanged. -/
theorem claim10_webhook_frame (p : WebhookPayload) (db : DBState) (uid : Int) :
    p.type = some "sub_completed" →
    (flyer_webhook p db).2.log = db.log
    ∧ (flyer_webhook p db).2.users.length = db.users.length
    ∧ ∀ (i : Nat),
        ((flyer_webhook p db).2.users.get? i).map UserRow.is_premium
            = (db.users.get? i).map UserRow.is_premium
        ∧ ((flyer_webhook p db).2.users.get? i).map UserRow.source
            = (db.users.get? i).map UserRow.source
        ∧ ((flyer_webhook p db).2.users.get? i).map UserRow.created_at
            = (db.users.get? i).map UserRow.created_at
        ∧ ((flyer_webhook p db).2.users.get? i).map UserRow.last_seen_at
            = (db.users.get? i).map UserRow.last_seen_at
        ∧ (∀ r, p.user_id = some uid → db.users.get? i = some r →
            r.tg_id ≠ uid → (flyer_webhook p db).2.users.get? i = some r) := by
  intro ht
  cases hu : p.user_id with
  | none =>
      have hdb : (flyer_webhook p db).2 = db := by simp [flyer_webhook, ht, hu]
      rw [hdb]
      exact ⟨rfl, rfl, fun i => ⟨rfl, rfl, rfl, rfl, fun r _ hr _ => hr⟩⟩
  | some uid' =>
      have husers : (flyer_webhook p db).2.users
          = sqlUpdateWhere uid' (fun r => { r with flyer_passed := true })
              db.users := by
        simp [flyer_webhook, ht, hu]
      have hlog : (flyer_webhook p db).2.log = db.log := by
        simp [flyer_webhook, ht, hu]
      refine ⟨hlog, ?_, fun i => ?_⟩
      · rw [husers]
        simp [sqlUpdateWhere]
      · rw [husers, sqlUpdateWhere, List.get?_map]
        cases hr : db.users.get? i with
        | none => exact ⟨rfl, rfl, rfl, rfl, fun r _ hr' _ => nomatch hr'⟩
        | some r =>
            by_cases hid : r.tg_id = uid'
            · refine ⟨?_, ?_, ?_, ?_, fun r0 hu' hr' hne => ?_⟩
              · simp [hid]
              · simp [hid]
              · simp [hid]
              · simp [hid]
              · cases Option.some.inj hr'
                have huid : uid' = uid := Option.some.inj hu'
                exact absurd (huid ▸ hid) hne
            · simp [hid]

end BotGateway

namespace BotGateway

theorem claim10_witness :
    (flyer_webhook ⟨some "sub_completed", some 7⟩
        ⟨[⟨7, true, some "a", false, 3, 4⟩],
          [⟨7, "start", none, false, 0⟩]⟩).2.log
      = [⟨7, "start", none, false, 0⟩]
    ∧ (flyer_webhook ⟨some "sub_completed", some 7⟩
        ⟨[⟨7, true, some "a", false, 3, 4⟩],
          [⟨7, "start", none, false, 0⟩]⟩).2.users.length = 1
    ∧ ((flyer_webhook ⟨some "sub_completed", some 7⟩
        ⟨[⟨7, true, some "a", false, 3, 4⟩],
          [⟨7, "start", none, false, 0⟩]⟩).2.users.get? 0).map
        UserRow.last_seen_at = some 4 := by
  have h := claim10_webhook_frame ⟨some "sub_completed", some 7⟩
    ⟨[⟨7, true, some "a", false, 3, 4⟩], [⟨7, "start", none, false, 0⟩]⟩ 7 rfl
  refine ⟨h.1, h.2.1, ?_⟩
  have h4 := (h.2.2 0).2.2.2.1
  rw [h4]
  rfl

/-- C8: startup aborts with an error whenever any of the four required
configuration values is absent; the listen port is optional and defaults
to 8000 when absent. -/
theorem claim8_config_validation (e : RawEnv) :
    ((e.bot_token = none ∨ e.flyer_key_premium = none
        ∨ e.flyer_key_regular = none ∨ e.database_url = none) →
      ∃ msg, loadConfig e = Except.error msg)
    ∧ (e.port = none → ∀ c, loadConfig e = Except.ok c → c.port = 8000) := by
  constructor
  · intro h
    cases hp : pyInt? (e.port.getD "8000") with
    | none =>
        exact ⟨"ValueError: invalid PORT", by simp only [loadConfig, hp]⟩
    | some port =>
        simp only [loadConfig, hp]
        by_cases h1 : pyTruthy e.bot_token = false
        · rw [if_pos h1]; exact ⟨_, rfl⟩
        · rw [if_neg h1]
          by_cases h2 : pyTruthy e.flyer_key_premium = false
          · rw [if_pos h2]; exact ⟨_, rfl⟩
          · rw [if_neg h2]
            by_cases h3 : pyTruthy e.flyer_key_regular = false
            · rw [if_pos h3]; exact ⟨_, rfl⟩
            · rw [if_neg h3]
              by_cases h4 : pyTruthy e.database_url = false
              · rw [if_pos h4]; exact ⟨_, rfl⟩
              · exfalso
                rcases h with h | h | h | h <;>
                  simp [pyTruthy, h] at h1 h2 h3 h4
  · intro hport c hc
    simp only [loadConfig] at hc
    rw [hport] at hc
    have h8 : pyInt? ((none : Option String).getD "8000") = some 8000 := by
      decide
    simp only [h8] at hc
    by_cases h1 : pyTruthy e.bot_token = false
    · rw [if_pos h1] at hc; cases hc
    · rw [if_neg h1] at hc
      by_cases h2 : pyTruthy e.flyer_key_premium = false
      · rw [if_pos h2] at hc; cases hc
      · rw [if_neg h2] at hc
        by_cases h3 : pyTruthy e.flyer_key_regular = false
        · rw [if_pos h3] at hc; cases hc
        · rw [if_neg h3] at hc
          by_cases h4 : pyTruthy e.database_url = false
          · rw [if_pos h4] at hc; cases hc
          · rw [if_neg h4] at hc
            cases hc
            rfl

theorem claim8_witness :
    (∃ msg, loadConfig ⟨none, some "p", some "r", some "d", none⟩
      = Except.error msg)
    ∧ ∀ c, loadConfig ⟨some "b", some "p", some "r", some "d", none⟩
        = Except.ok c → c.port = 8000 := by
  have h1 := (claim8_config_validation ⟨none, some "p", some "r", some "d", none⟩).1
  have h2 := (claim8_config_validation ⟨some "b", some "p", some "r", some "d", none⟩).2
  exact ⟨h1 (Or.inl rfl), h2 rfl⟩

end BotGateway
